import Mathlib

/-!
Shallow embedding of `src/services/apiClient.ts` (token-rotation request
dispatcher) and proofs about its credential-resolution and rotation logic.

External collaborators are modelled as explicit parameters:
* the session cache slot `veoAuthTokens` (`CacheSlot`, abstracting
  `sessionStorage.getItem` together with `JSON.parse`),
* the refresh collaborator `getVeoAuthTokens` (an `Except` value: it either
  throws or returns a credential list; a `null`/empty return takes the same
  code path, so both are the empty list),
* the network (`net : Nat → FetchOutcome`, the outcome of the i-th request
  issued by one dispatch call; exactly one request is issued per attempted
  candidate, in order),
* the audit sink `addLogEntry` (`Sink`; it may throw synchronously, which,
  being unguarded in the source, propagates).

The dispatcher additionally returns an observable trace: the audit entries it
submitted to the sink, the HTTP requests it issued, and whether it read or
wrote the session cache or called the refresh collaborator.
-/

/-- JSON values, for request payloads and parsed response bodies. -/
inductive Json
  | null
  | bool (b : Bool)
  | num (n : Int)
  | str (s : String)
  | arr (elems : List Json)
  | obj (fields : List (String × Json))

/-- First-match field lookup in a JS object literal (JSON.parse keeps the
last duplicate key; duplicates do not occur in any input considered here). -/
def lookupField : List (String × Json) → String → Option Json
  | [], _ => none
  | (k, v) :: rest, key => if k == key then some v else lookupField rest key

/-- Property access `j.k` on a parsed JSON value that is NOT `null`: a field
of an object, `undefined` (none) for any other non-null value (member access
on a primitive or an array boxes it and finds no own "error"/"message"
property). Member access on `null` itself throws a TypeError in JS; the one
place the source performs an unguarded access on a possibly-null value
(`data.error` at line 129) models that throw separately, in `httpFailError`.
The optional-chained inner access `?.message` never throws, so `none` is
correct for it even on `null`. -/
def Json.getField : Json → String → Option Json
  | .obj fields, key => lookupField fields key
  | _, _ => none

/-- JS truthiness of a JSON value (`undefined` is handled by `Option`). -/
def jsTruthy : Json → Bool
  | .null => false
  | .bool b => b
  | .num n => n != 0
  | .str s => s != ""
  | .arr _ => true
  | .obj _ => true

mutual

/-- JS `String(v)` on a JSON value (as used by `new Error(v)`). -/
def jsToString : Json → String
  | .null => "null"
  | .bool true => "true"
  | .bool false => "false"
  | .num n => toString n
  | .str s => s
  | .arr xs => jsArrToString xs
  | .obj _ => "[object Object]"

/-- JS `Array.prototype.toString`: elements joined by commas, `null`
rendering as the empty string. -/
def jsArrToString : List Json → String
  | [] => ""
  | [Json.null] => ""
  | [x] => jsToString x
  | Json.null :: rest => "," ++ jsArrToString rest
  | x :: rest => jsToString x ++ "," ++ jsArrToString rest

end

/-- A thrown JS value: an `Error` instance carrying `.message`, or any other
value identified by its `String(·)` form. -/
inductive JsError
  | err (msg : String)
  | nonErr (val : String)
deriving DecidableEq

/-- `e instanceof Error ? e.message : String(e)` (apiClient.ts line 138). -/
def jsErrMessage : JsError → String
  | .err m => m
  | .nonErr v => v

/-- `e instanceof Error ? e.message : 'Unknown error'` (line 87). -/
def jsErrMessageOrUnknown : JsError → String
  | .err m => m
  | .nonErr _ => "Unknown error"

/-- Template interpolation of `lastError.message` (line 166): `undefined`
renders as the string "undefined" for a non-Error throwable. -/
def jsErrMessageInterp : JsError → String
  | .err m => m
  | .nonErr _ => "undefined"

/-- `lastError.message` as an optional log field (line 169): `undefined`
for a non-Error throwable, i.e. the field is absent. -/
def jsErrMessageOpt : JsError → Option String
  | .err m => some m
  | .nonErr _ => none

/-- One cached credential: `{ token, createdAt }`. -/
structure Credential where
  token : String
  createdAt : String
deriving DecidableEq

/-- The state of the `veoAuthTokens` session-storage slot combined with the
outcome of `JSON.parse` on it: absent (or the falsy empty string), a
non-empty string that fails to parse, a parse result that is not an array,
or an array of credential objects (possibly empty). -/
inductive CacheSlot
  | missing
  | malformed
  | notArray
  | credList (l : List Credential)

/-- `getTokens` (apiClient.ts lines 25-38): read `veoAuthTokens`, parse it,
return the parsed array when it is a non-empty array, `[]` in every other
case (absent item, parse exception, non-array, empty array). -/
def getTokens : CacheSlot → List Credential
  | .missing => []
  | .malformed => []
  | .notArray => []
  | .credList l => if l.length > 0 then l else []

/-- Audit entry status, `"Success" | "Error"`. -/
inductive LogStatus
  | success
  | error
deriving DecidableEq

/-- An audit entry, the argument shape of `addLogEntry`. -/
structure LogEntry where
  model : String
  prompt : String
  output : String
  tokenCount : Nat
  status : LogStatus
  error : Option String
deriving DecidableEq

/-- Refresh-attempt notice (lines 61-67). -/
def refreshNoticeEntry (ctx : String) : LogEntry :=
  ⟨ctx, "Auth Token Refresh",
    "No tokens found in session. Attempting to re-fetch from database.",
    0, .success, none⟩

/-- Refresh-success entry (lines 74-80). -/
def refreshOkEntry (ctx : String) (n : Nat) : LogEntry :=
  ⟨ctx, "Auth Token Refresh",
    "Successfully re-fetched " ++ toString n ++ " tokens.",
    0, .success, none⟩

/-- Refresh-failure entry (lines 84-91). -/
def refreshFailEntry (ctx : String) (e : JsError) : LogEntry :=
  ⟨ctx, "Auth Token Refresh",
    "Failed to re-fetch tokens: " ++ jsErrMessageOrUnknown e,
    0, .error, some (jsErrMessageOrUnknown e)⟩

/-- JS `s.slice(-n)`: the last `min n (length s)` characters (the whole
string when it has at most `n` characters). -/
def sliceLast (n : Nat) (s : String) : String :=
  String.mk (s.data.drop (s.data.length - n))

/-- Attempt-start entry (lines 106-112); `i` is the 0-based attempt index. -/
def attemptLogEntry (ctx : String) (i : Nat) (tok : String) : LogEntry :=
  ⟨ctx, "Attempting " ++ ctx ++ " with token #" ++ toString (i + 1),
    "Using token ending in ..." ++ sliceLast 6 tok,
    0, .success, none⟩

/-- Attempt-failure entry (lines 140-147). -/
def failLogEntry (ctx : String) (i : Nat) (msg : String) : LogEntry :=
  ⟨ctx, "Token #" ++ toString (i + 1) ++ " failed", msg, 0, .error, some msg⟩

/-- Retry notice emitted between consecutive attempts (lines 151-157). -/
def retryLogEntry (ctx : String) : LogEntry :=
  ⟨ctx, "Retrying with next token...", "Fallback mechanism initiated.",
    0, .success, none⟩

/-- Exhaustion summary entry (lines 163-170). -/
def summaryLogEntry (ctx : String) (e : JsError) : LogEntry :=
  ⟨ctx, "All available auth tokens failed.",
    "Final error: " ++ jsErrMessageInterp e,
    0, .error, jsErrMessageOpt e⟩

/-- An HTTP response: status code and the outcome of `response.json()`
(`.error m` when the body is not valid JSON and `json()` rejects with a
`SyntaxError` whose message is `m`). -/
structure HttpResponse where
  status : Nat
  body : Except String Json

/-- `response.ok`: status in the inclusive range 200-299. -/
def HttpResponse.respOk (r : HttpResponse) : Bool :=
  decide (200 ≤ r.status) && decide (r.status < 300)

/-- Outcome of one issued request: `fetch` itself throws, or a response
arrives. -/
inductive FetchOutcome
  | fetchThrow (e : JsError)
  | resp (r : HttpResponse)

/-- The nested error-message field `data.error?.message` (line 129). -/
def nestedMsg (d : Json) : Option Json :=
  (d.getField "error").bind (fun e => Json.getField e "message")

/-- The top-level message field `data.message` (line 129). -/
def topMsg (d : Json) : Option Json :=
  d.getField "message"

/-- JS `||` on a possibly-absent value: the value when present and truthy,
nothing otherwise. -/
def pickTruthy : Option Json → Option Json
  | some v => if jsTruthy v then some v else none
  | none => none

/-- The selection chain of line 129 for a NON-NULL parsed body:
`data.error?.message || data.message || "API call failed (status)"`,
stringified as `new Error(·)` does. A `null` body never reaches this chain:
the unguarded `data.error` access throws first (see `httpFailError`). -/
def failMessage (d : Json) (status : Nat) : String :=
  match pickTruthy (nestedMsg d) with
  | some v => jsToString v
  | none =>
    match pickTruthy (topMsg d) with
    | some v => jsToString v
    | none => "API call failed (" ++ toString status ++ ")"

/-- The error thrown from line 129 on a failing HTTP status. Evaluating
`data.error?.message || data.message || ...` first performs the UNGUARDED
member access `data.error` (only `.message` is optional-chained), which
throws `TypeError: Cannot read properties of null (reading 'error')` when
the parsed body is `null` — the only JSON value on which member access
throws. For every other body the chain selects the first truthy candidate
and line 130 wraps it in `new Error(...)`. Either way an Error instance is
thrown inside the per-attempt `try`, carrying the message below. -/
def httpFailError (d : Json) (status : Nat) : JsError :=
  match d with
  | .null => .err "Cannot read properties of null (reading 'error')"
  | _ => .err (failMessage d status)

/-- The body of the per-attempt `try` (lines 116-134) as a typed result:
a network throw or a `json()` rejection or a non-ok status is a failure
carrying the error value the source would throw; an ok status with a parsed
body is a success carrying the body. -/
def attemptResult : FetchOutcome → Except JsError Json
  | .fetchThrow e => .error e
  | .resp r =>
    match r.body with
    | .error m => .error (.err m)
    | .ok d => if r.respOk then .ok d else .error (httpFailError d r.status)

/-- Whether an attempt with this network outcome fails. -/
def attemptFails (o : FetchOutcome) : Bool :=
  match attemptResult o with
  | .ok _ => false
  | .error _ => true

/-- The error value a failing attempt records as `lastError`. -/
def attemptError (o : FetchOutcome) : JsError :=
  match attemptResult o with
  | .ok _ => .err ""
  | .error e => e

/-- The parsed body a successful attempt returns. -/
def outcomeData (o : FetchOutcome) : Json :=
  match attemptResult o with
  | .ok d => d
  | .error _ => Json.null

/-- One issued HTTP request: `POST endpoint` with a bearer token and the
JSON payload (lines 116-123). -/
structure Request where
  endpoint : String
  token : String
  body : Json

/-- The success value `{ data, successfulToken }` (line 134). -/
structure DispatchSuccess where
  data : Json
  successfulToken : String

/-- Result and trace of the rotation loop alone. -/
structure LoopOut where
  result : Except JsError DispatchSuccess
  log : List LogEntry
  requests : List Request

/-- The audit sink `addLogEntry`: returns normally or throws. -/
def Sink : Type := LogEntry → Except JsError Unit

/-- A sink that always returns normally. -/
def okSink : Sink := fun _ => .ok ()

/-- The rotation loop (lines 102-171). `i` is the index of the current
candidate. Every sink call is unguarded in the source, so a sink throw
aborts the whole dispatch with the sink's error. The exhaustion epilogue
(lines 162-171) runs after the last candidate fails; reaching it with no
candidate at all would read `.message` of `null` (line 166) and die with a
TypeError before logging — that path is unreachable from the dispatcher,
which rejects empty lists beforehand. -/
def rotateLoop (net : Nat → FetchOutcome) (sink : Sink) (ctx endpoint : String)
    (requestBody : Json) : Nat → List Credential → LoopOut
  | _, [] =>
    ⟨.error (.err "Cannot read properties of null (reading 'message')"),
      [], []⟩
  | i, c :: rest =>
    match sink (attemptLogEntry ctx i c.token) with
    | .error e2 => ⟨.error e2, [attemptLogEntry ctx i c.token], []⟩
    | .ok _ =>
      match attemptResult (net i) with
      | .ok d =>
        ⟨.ok ⟨d, c.token⟩, [attemptLogEntry ctx i c.token],
          [⟨endpoint, c.token, requestBody⟩]⟩
      | .error e1 =>
        match sink (failLogEntry ctx i (jsErrMessage e1)) with
        | .error e2 =>
          ⟨.error e2,
            [attemptLogEntry ctx i c.token, failLogEntry ctx i (jsErrMessage e1)],
            [⟨endpoint, c.token, requestBody⟩]⟩
        | .ok _ =>
          match rest with
          | [] =>
            match sink (summaryLogEntry ctx e1) with
            | .error e2 =>
              ⟨.error e2,
                [attemptLogEntry ctx i c.token,
                  failLogEntry ctx i (jsErrMessage e1), summaryLogEntry ctx e1],
                [⟨endpoint, c.token, requestBody⟩]⟩
            | .ok _ =>
              ⟨.error e1,
                [attemptLogEntry ctx i c.token,
                  failLogEntry ctx i (jsErrMessage e1), summaryLogEntry ctx e1],
                [⟨endpoint, c.token, requestBody⟩]⟩
          | _ :: _ =>
            match sink (retryLogEntry ctx) with
            | .error e2 =>
              ⟨.error e2,
                [attemptLogEntry ctx i c.token,
                  failLogEntry ctx i (jsErrMessage e1), retryLogEntry ctx],
                [⟨endpoint, c.token, requestBody⟩]⟩
            | .ok _ =>
              let out := rotateLoop net sink ctx endpoint requestBody (i + 1) rest
              ⟨out.result,
                attemptLogEntry ctx i c.token ::
                  failLogEntry ctx i (jsErrMessage e1) :: retryLogEntry ctx :: out.log,
                ⟨endpoint, c.token, requestBody⟩ :: out.requests⟩

/-- Result and full trace of one dispatch call. -/
structure DispatchOutcome where
  result : Except JsError DispatchSuccess
  log : List LogEntry
  requests : List Request
  cacheRead : Bool
  cacheWrites : List (List Credential)
  refreshCalled : Bool

/-- The no-credentials error message (line 97). -/
def noCredMsg (ctx : String) : String :=
  "Auth Token is required for " ++ ctx ++ ". Please set it via the Key icon in the header."

/-- JS truthiness of the optional `specificToken` argument: provided and
not the empty string. -/
def pinnedTruthy : Option String → Bool
  | none => false
  | some s => s != ""

/-- The ternary on line 56: a truthy `specificToken` yields the pinned
single-element list with the `'N/A'` sentinel, otherwise the cached list. -/
def resolveInitial (cache : CacheSlot) (specificToken : Option String) : List Credential :=
  match specificToken with
  | some s => if s != "" then [⟨s, "N/A"⟩] else getTokens cache
  | none => getTokens cache

/-- Lines 95-171: reject an empty list with the no-credentials error, else
run the rotation loop, prepending any pre-loop audit entries. -/
def finishDispatch (net : Nat → FetchOutcome) (sink : Sink)
    (endpoint : String) (requestBody : Json) (ctx : String)
    (cRead : Bool) (writes : List (List Credential)) (refCalled : Bool)
    (preLog : List LogEntry) (tokens : List Credential) : DispatchOutcome :=
  if tokens.isEmpty then
    ⟨.error (.err (noCredMsg ctx)), preLog, [], cRead, writes, refCalled⟩
  else
    let lo := rotateLoop net sink ctx endpoint requestBody 0 tokens
    ⟨lo.result, preLog ++ lo.log, lo.requests, cRead, writes, refCalled⟩

/-- `fetchWithTokenRotation` (lines 48-172). Resolve the candidate list
via the line-56 ternary; when it is empty and no truthy pin was given,
log a notice and invoke the refresh collaborator (lines 59-93), persisting
and adopting a non-empty result; then reject an empty list (lines 95-98)
or rotate (lines 102-171). -/
def fetchWithTokenRotation (cache : CacheSlot)
    (refresh : Except JsError (List Credential))
    (net : Nat → FetchOutcome) (sink : Sink)
    (endpoint : String) (requestBody : Json) (logContext : String)
    (specificToken : Option String) : DispatchOutcome :=
  let cRead := !pinnedTruthy specificToken
  let tokens0 := resolveInitial cache specificToken
  if tokens0.isEmpty && !pinnedTruthy specificToken then
    match sink (refreshNoticeEntry logContext) with
    | .error e =>
      ⟨.error e, [refreshNoticeEntry logContext], [], cRead, [], false⟩
    | .ok _ =>
      match refresh with
      | .ok newTokens =>
        if newTokens.length > 0 then
          match sink (refreshOkEntry logContext newTokens.length) with
          | .error e =>
            ⟨.error e,
              [refreshNoticeEntry logContext, refreshOkEntry logContext newTokens.length],
              [], cRead, [newTokens], true⟩
          | .ok _ =>
            finishDispatch net sink endpoint requestBody logContext
              cRead [newTokens] true
              [refreshNoticeEntry logContext, refreshOkEntry logContext newTokens.length]
              newTokens
        else
          finishDispatch net sink endpoint requestBody logContext
            cRead [] true [refreshNoticeEntry logContext] []
      | .error e =>
        match sink (refreshFailEntry logContext e) with
        | .error e2 =>
          ⟨.error e2,
            [refreshNoticeEntry logContext, refreshFailEntry logContext e],
            [], cRead, [], true⟩
        | .ok _ =>
          finishDispatch net sink endpoint requestBody logContext
            cRead [] true
            [refreshNoticeEntry logContext, refreshFailEntry logContext e] []
  else
    finishDispatch net sink endpoint requestBody logContext
      cRead [] false [] tokens0

/-- Whether `pat` occurs at the start of `l`. -/
def listStartsWith : List Char → List Char → Bool
  | _, [] => true
  | [], _ :: _ => false
  | a :: as, b :: bs => a == b && listStartsWith as bs

/-- Whether `pat` occurs somewhere inside `l`. -/
def listContainsSub : List Char → List Char → Bool
  | [], pat => pat.isEmpty
  | a :: as, pat => listStartsWith (a :: as) pat || listContainsSub as pat

/-- Substring test on strings. -/
def strContains (hay pat : String) : Bool :=
  listContainsSub hay.data pat.data

/-- Whether the refresh collaborator yields no credentials: it throws, or it
returns an empty list (the source treats a `null` return like an empty one,
so both are the empty list here). -/
def refreshYieldsEmpty : Except JsError (List Credential) → Bool
  | .ok l => l.isEmpty
  | .error _ => true

theorem listStartsWith_append (l t : List Char) : listStartsWith (l ++ t) l = true := by
  induction l with
  | nil => cases t <;> rfl
  | cons a as ih => simp [listStartsWith, ih]

theorem listContainsSub_of_startsWith {h pat : List Char}
    (hs : listStartsWith h pat = true) : listContainsSub h pat = true := by
  cases h with
  | nil =>
    cases pat with
    | nil => rfl
    | cons b bs => simp [listStartsWith] at hs
  | cons a as => simp [listContainsSub, hs]

theorem listContainsSub_append_left (p : List Char) {h pat : List Char}
    (hc : listContainsSub h pat = true) : listContainsSub (p ++ h) pat = true := by
  induction p with
  | nil => simpa using hc
  | cons a as ih => simp [listContainsSub, ih]

/-- The no-credentials error message contains the context label. -/
theorem noCredMsg_contains_ctx (ctx : String) : strContains (noCredMsg ctx) ctx = true := by
  have hdata : (noCredMsg ctx).data =
      "Auth Token is required for ".data ++
        (ctx.data ++ ". Please set it via the Key icon in the header.".data) := by
    simp [noCredMsg, String.data_append]
  unfold strContains
  rw [hdata]
  exact listContainsSub_append_left _
    (listContainsSub_of_startsWith (listStartsWith_append _ _))

theorem attemptResult_of_not_fails {o : FetchOutcome} (h : attemptFails o = false) :
    attemptResult o = .ok (outcomeData o) := by
  unfold attemptFails at h
  unfold outcomeData
  cases hA : attemptResult o with
  | ok d => rfl
  | error e => rw [hA] at h; simp at h

theorem attemptResult_of_fails {o : FetchOutcome} (h : attemptFails o = true) :
    attemptResult o = .error (attemptError o) := by
  unfold attemptFails at h
  unfold attemptError
  cases hA : attemptResult o with
  | ok d => rw [hA] at h; simp at h
  | error e => rfl


theorem rotateLoop_cons_ok (net : Nat → FetchOutcome) (sink : Sink) (ctx ep : String)
    (body : Json) (i : Nat) (c : Credential) (rest : List Credential) (d : Json)
    (hs : ∀ e, sink e = .ok ()) (hres : attemptResult (net i) = .ok d) :
    rotateLoop net sink ctx ep body i (c :: rest) =
      ⟨.ok ⟨d, c.token⟩, [attemptLogEntry ctx i c.token], [⟨ep, c.token, body⟩]⟩ := by
  simp [rotateLoop, hs, hres]

theorem rotateLoop_cons_fail_last (net : Nat → FetchOutcome) (sink : Sink) (ctx ep : String)
    (body : Json) (i : Nat) (c : Credential) (e1 : JsError)
    (hs : ∀ e, sink e = .ok ()) (hres : attemptResult (net i) = .error e1) :
    rotateLoop net sink ctx ep body i [c] =
      ⟨.error e1,
        [attemptLogEntry ctx i c.token, failLogEntry ctx i (jsErrMessage e1),
          summaryLogEntry ctx e1],
        [⟨ep, c.token, body⟩]⟩ := by
  simp [rotateLoop, hs, hres]

theorem rotateLoop_cons_fail_more (net : Nat → FetchOutcome) (sink : Sink) (ctx ep : String)
    (body : Json) (i : Nat) (c c2 : Credential) (rest2 : List Credential) (e1 : JsError)
    (hs : ∀ e, sink e = .ok ()) (hres : attemptResult (net i) = .error e1) :
    rotateLoop net sink ctx ep body i (c :: c2 :: rest2) =
      ⟨(rotateLoop net sink ctx ep body (i + 1) (c2 :: rest2)).result,
        attemptLogEntry ctx i c.token :: failLogEntry ctx i (jsErrMessage e1) ::
          retryLogEntry ctx :: (rotateLoop net sink ctx ep body (i + 1) (c2 :: rest2)).log,
        ⟨ep, c.token, body⟩ :: (rotateLoop net sink ctx ep body (i + 1) (c2 :: rest2)).requests⟩ := by
  conv_lhs => rw [rotateLoop]
  simp [hs, hres]

theorem okSink_ok : ∀ e, okSink e = .ok () := fun _ => rfl

theorem rotateLoop_first_success (net : Nat → FetchOutcome) (ctx ep : String) (body : Json) :
    ∀ (toks : List Credential) (i k : Nat) (hk : k < toks.length),
      (∀ j, j < k → attemptFails (net (i + j)) = true) →
      attemptFails (net (i + k)) = false →
      (rotateLoop net okSink ctx ep body i toks).result =
          .ok ⟨outcomeData (net (i + k)), (toks.get ⟨k, hk⟩).token⟩ ∧
        (rotateLoop net okSink ctx ep body i toks).requests.length = k + 1 := by
  intro toks
  induction toks with
  | nil => intro i k hk; simp at hk
  | cons c rest ih =>
    intro i k hk hprev hsucc
    cases k with
    | zero =>
      have h0 : attemptResult (net i) = .ok (outcomeData (net i)) := by
        have hf : attemptFails (net i) = false := by simpa using hsucc
        exact attemptResult_of_not_fails hf
      rw [rotateLoop_cons_ok net okSink ctx ep body i c rest _ okSink_ok h0]
      simp
    | succ k' =>
      have h0 : attemptFails (net i) = true := by
        have := hprev 0 (Nat.succ_pos k')
        simpa using this
      have hres := attemptResult_of_fails h0
      have hk' : k' < rest.length := by
        simpa [Nat.succ_lt_succ_iff] using hk
      cases rest with
      | nil => simp at hk'
      | cons c2 rest2 =>
        have hprev' : ∀ j, j < k' → attemptFails (net (i + 1 + j)) = true := by
          intro j hj
          have := hprev (j + 1) (Nat.succ_lt_succ hj)
          have heq : i + (j + 1) = i + 1 + j := by omega
          rwa [heq] at this
        have hsucc' : attemptFails (net (i + 1 + k')) = false := by
          have heq : i + (k' + 1) = i + 1 + k' := by omega
          rwa [heq] at hsucc
        have ihapp := ih (i + 1) k' hk' hprev' hsucc'
        have heq : i + 1 + k' = i + (k' + 1) := by omega
        rw [heq] at ihapp
        rw [rotateLoop_cons_fail_more net okSink ctx ep body i c c2 rest2 _ okSink_ok hres]
        constructor
        · simpa using ihapp.1
        · simp only [List.length_cons]
          rw [ihapp.2]

theorem rotateLoop_all_fail_result (net : Nat → FetchOutcome) (ctx ep : String) (body : Json) :
    ∀ (toks : List Credential) (i : Nat), toks ≠ [] →
      (∀ j, j < toks.length → attemptFails (net (i + j)) = true) →
      (rotateLoop net okSink ctx ep body i toks).result =
        .error (attemptError (net (i + (toks.length - 1)))) := by
  intro toks
  induction toks with
  | nil => intro i h; exact absurd rfl h
  | cons c rest ih =>
    intro i _ hall
    have h0 : attemptFails (net i) = true := by
      have := hall 0 (by simp)
      simpa using this
    have hres := attemptResult_of_fails h0
    cases rest with
    | nil =>
      rw [rotateLoop_cons_fail_last net okSink ctx ep body i c _ okSink_ok hres]
      simp
    | cons c2 rest2 =>
      have hall' : ∀ j, j < (c2 :: rest2).length → attemptFails (net (i + 1 + j)) = true := by
        intro j hj
        have := hall (j + 1) (by simpa using Nat.succ_lt_succ hj)
        have heq : i + (j + 1) = i + 1 + j := by omega
        rwa [heq] at this
      have ihapp := ih (i + 1) (by simp) hall'
      have heq : i + 1 + ((c2 :: rest2).length - 1) = i + ((c :: c2 :: rest2).length - 1) := by
        simp only [List.length_cons]
        omega
      rw [heq] at ihapp
      rw [rotateLoop_cons_fail_more net okSink ctx ep body i c c2 rest2 _ okSink_ok hres]
      simpa using ihapp

theorem rotateLoop_all_fail_log (net : Nat → FetchOutcome) (ctx ep : String) (body : Json) :
    ∀ (toks : List Credential) (i : Nat), toks ≠ [] →
      (∀ j, j < toks.length → attemptFails (net (i + j)) = true) →
      (rotateLoop net okSink ctx ep body i toks).log.length = 3 * toks.length ∧
        (rotateLoop net okSink ctx ep body i toks).log.countP
            (fun e => decide (e.status = LogStatus.error)) = toks.length + 1 := by
  intro toks
  induction toks with
  | nil => intro i h; exact absurd rfl h
  | cons c rest ih =>
    intro i _ hall
    have h0 : attemptFails (net i) = true := by
      have := hall 0 (by simp)
      simpa using this
    have hres := attemptResult_of_fails h0
    cases rest with
    | nil =>
      rw [rotateLoop_cons_fail_last net okSink ctx ep body i c _ okSink_ok hres]
      simp [List.countP_cons, attemptLogEntry, failLogEntry, summaryLogEntry]
    | cons c2 rest2 =>
      have hall' : ∀ j, j < (c2 :: rest2).length → attemptFails (net (i + 1 + j)) = true := by
        intro j hj
        have := hall (j + 1) (by simpa using Nat.succ_lt_succ hj)
        have heq : i + (j + 1) = i + 1 + j := by omega
        rwa [heq] at this
      have ihapp := ih (i + 1) (by simp) hall'
      rw [rotateLoop_cons_fail_more net okSink ctx ep body i c c2 rest2 _ okSink_ok hres]
      constructor
      · simp only [List.length_cons, ihapp.1]
        omega
      · simp only [List.countP_cons, List.length_cons]
        simp [attemptLogEntry, failLogEntry, retryLogEntry, ihapp.2]

theorem rotateLoop_sink_irrelevant (net : Nat → FetchOutcome) (ctx ep : String) (body : Json)
    (sink : Sink) (h : ∀ e, sink e = .ok ()) :
    ∀ (toks : List Credential) (i : Nat),
      rotateLoop net sink ctx ep body i toks = rotateLoop net okSink ctx ep body i toks := by
  intro toks
  induction toks with
  | nil => intro i; rfl
  | cons c rest ih =>
    intro i
    cases hres : attemptResult (net i) with
    | ok d =>
      rw [rotateLoop_cons_ok net sink ctx ep body i c rest d h hres,
        rotateLoop_cons_ok net okSink ctx ep body i c rest d okSink_ok hres]
    | error e1 =>
      cases rest with
      | nil =>
        rw [rotateLoop_cons_fail_last net sink ctx ep body i c e1 h hres,
          rotateLoop_cons_fail_last net okSink ctx ep body i c e1 okSink_ok hres]
      | cons c2 rest2 =>
        rw [rotateLoop_cons_fail_more net sink ctx ep body i c c2 rest2 e1 h hres,
          rotateLoop_cons_fail_more net okSink ctx ep body i c c2 rest2 e1 okSink_ok hres,
          ih]

theorem dispatch_sink_irrelevant (cache : CacheSlot) (refresh : Except JsError (List Credential))
    (net : Nat → FetchOutcome) (sink : Sink) (h : ∀ e, sink e = .ok ())
    (ep : String) (body : Json) (ctx : String) (st : Option String) :
    fetchWithTokenRotation cache refresh net sink ep body ctx st =
      fetchWithTokenRotation cache refresh net okSink ep body ctx st := by
  unfold fetchWithTokenRotation finishDispatch
  simp only [h, okSink_ok, rotateLoop_sink_irrelevant net ctx ep body sink h]

theorem dispatch_cached_nonempty (toks : List Credential) (hne : toks ≠ [])
    (refresh : Except JsError (List Credential)) (net : Nat → FetchOutcome) (sink : Sink)
    (ep : String) (body : Json) (ctx : String) :
    fetchWithTokenRotation (.credList toks) refresh net sink ep body ctx none =
      ⟨(rotateLoop net sink ctx ep body 0 toks).result,
        (rotateLoop net sink ctx ep body 0 toks).log,
        (rotateLoop net sink ctx ep body 0 toks).requests, true, [], false⟩ := by
  have hlen : toks.length > 0 := List.length_pos.mpr hne
  have hget : getTokens (.credList toks) = toks := by simp [getTokens, hlen]
  have hemp : toks.isEmpty = false := by
    cases toks with
    | nil => exact absurd rfl hne
    | cons a l => rfl
  unfold fetchWithTokenRotation finishDispatch resolveInitial pinnedTruthy
  simp [hget, hemp]

theorem dispatch_no_creds (cache : CacheSlot) (refresh : Except JsError (List Credential))
    (net : Nat → FetchOutcome) (ep : String) (body : Json) (ctx : String)
    (h1 : getTokens cache = []) (h2 : refreshYieldsEmpty refresh = true) :
    ∃ preLog,
      fetchWithTokenRotation cache refresh net okSink ep body ctx none =
        ⟨.error (.err (noCredMsg ctx)), preLog, [], true, [], true⟩ := by
  unfold fetchWithTokenRotation finishDispatch resolveInitial pinnedTruthy
  cases refresh with
  | ok l =>
    have hl : l = [] := by
      simpa [refreshYieldsEmpty, List.isEmpty_iff] using h2
    subst hl
    refine ⟨[refreshNoticeEntry ctx], ?_⟩
    simp [h1, okSink_ok]
  | error e =>
    refine ⟨[refreshNoticeEntry ctx, refreshFailEntry ctx e], ?_⟩
    simp [h1, okSink_ok]

/-- C1: for a non-empty resolved credential list (cached, no pin) where
candidate k is the first whose request succeeds (ok status, body parses)
and every earlier candidate fails, dispatch returns the parsed body with
candidate k's token, and exactly k+1 requests are issued — none for any
candidate after k. -/
theorem C1_first_success_stops_rotation
    (toks : List Credential) (refresh : Except JsError (List Credential))
    (net : Nat → FetchOutcome) (ep : String) (body : Json) (ctx : String)
    (k : Nat) (hk : k < toks.length)
    (hprev : ∀ j, j < k → attemptFails (net j) = true)
    (hsucc : attemptFails (net k) = false) :
    (fetchWithTokenRotation (.credList toks) refresh net okSink ep body ctx none).result =
        .ok ⟨outcomeData (net k), (toks.get ⟨k, hk⟩).token⟩ ∧
      (fetchWithTokenRotation (.credList toks) refresh net okSink ep body ctx
          none).requests.length = k + 1 := by
  have hne : toks ≠ [] := by
    intro h
    rw [h] at hk
    simp at hk
  rw [dispatch_cached_nonempty toks hne refresh net okSink ep body ctx]
  have := rotateLoop_first_success net ctx ep body toks 0 k hk
    (fun j hj => by simpa using hprev j hj) (by simpa using hsucc)
  simpa using this

theorem C1_witness :
    (fetchWithTokenRotation (.credList [⟨"A", "x"⟩, ⟨"B", "y"⟩]) (.ok [])
          (fun i => if i == 0 then .fetchThrow (.err "boom")
            else .resp ⟨200, .ok (.str "done")⟩)
          okSink "/api/veo" .null "VEO T2V" none).result =
        .ok ⟨.str "done", "B"⟩ ∧
      (fetchWithTokenRotation (.credList [⟨"A", "x"⟩, ⟨"B", "y"⟩]) (.ok [])
          (fun i => if i == 0 then .fetchThrow (.err "boom")
            else .resp ⟨200, .ok (.str "done")⟩)
          okSink "/api/veo" .null "VEO T2V" none).requests.length = 2 :=
  C1_first_success_stops_rotation [⟨"A", "x"⟩, ⟨"B", "y"⟩] (.ok [])
    (fun i => if i == 0 then .fetchThrow (.err "boom")
      else .resp ⟨200, .ok (.str "done")⟩)
    "/api/veo" .null "VEO T2V" 1 (by decide) (by decide) (by decide)

/-- C2: when every candidate of a non-empty resolved credential list fails,
dispatch fails with exactly the error value recorded from the final
candidate's failure — same constructor and message, no wrapper. -/
theorem C2_exhaustion_rethrows_last_error
    (toks : List Credential) (refresh : Except JsError (List Credential))
    (net : Nat → FetchOutcome) (ep : String) (body : Json) (ctx : String)
    (hne : toks ≠ [])
    (hall : ∀ j, j < toks.length → attemptFails (net j) = true) :
    (fetchWithTokenRotation (.credList toks) refresh net okSink ep body ctx none).result =
      .error (attemptError (net (toks.length - 1))) := by
  rw [dispatch_cached_nonempty toks hne refresh net okSink ep body ctx]
  have := rotateLoop_all_fail_result net ctx ep body toks 0 hne
    (fun j hj => by simpa using hall j hj)
  simpa using this

theorem C2_witness :
    (fetchWithTokenRotation (.credList [⟨"A", "x"⟩, ⟨"B", "y"⟩]) (.ok [])
        (fun i => if i == 0 then .fetchThrow (.err "first error")
          else .fetchThrow (.nonErr "thrown string"))
        okSink "/api/veo" .null "VEO T2V" none).result =
      .error (.nonErr "thrown string") :=
  C2_exhaustion_rethrows_last_error [⟨"A", "x"⟩, ⟨"B", "y"⟩] (.ok [])
    (fun i => if i == 0 then .fetchThrow (.err "first error")
      else .fetchThrow (.nonErr "thrown string"))
    "/api/veo" .null "VEO T2V" (by decide) (by decide)

/-- C3: with no pin and an empty resolved list (cache yields nothing and the
refresh throws or yields nothing), dispatch fails with the no-credentials
error, whose message contains the context label, before issuing any HTTP
request. -/
theorem C3_empty_credentials_fail_fast
    (cache : CacheSlot) (refresh : Except JsError (List Credential))
    (net : Nat → FetchOutcome) (ep : String) (body : Json) (ctx : String)
    (h1 : getTokens cache = []) (h2 : refreshYieldsEmpty refresh = true) :
    (fetchWithTokenRotation cache refresh net okSink ep body ctx none).result =
        .error (.err (noCredMsg ctx)) ∧
      strContains (noCredMsg ctx) ctx = true ∧
      (fetchWithTokenRotation cache refresh net okSink ep body ctx none).requests = [] := by
  obtain ⟨preLog, hpl⟩ := dispatch_no_creds cache refresh net ep body ctx h1 h2
  rw [hpl]
  exact ⟨rfl, noCredMsg_contains_ctx ctx, rfl⟩

theorem C3_witness :
    (fetchWithTokenRotation .missing (.ok []) (fun _ => .resp ⟨200, .ok .null⟩)
          okSink "/api/veo" .null "VEO T2V" none).result =
        .error (.err (noCredMsg "VEO T2V")) ∧
      strContains (noCredMsg "VEO T2V") "VEO T2V" = true ∧
      (fetchWithTokenRotation .missing (.ok []) (fun _ => .resp ⟨200, .ok .null⟩)
          okSink "/api/veo" .null "VEO T2V" none).requests = [] :=
  C3_empty_credentials_fail_fast .missing (.ok []) (fun _ => .resp ⟨200, .ok .null⟩)
    "/api/veo" .null "VEO T2V" rfl rfl

/-- C7: a malformed cached value (like a non-array or an empty array) is
treated exactly like a missing cache — the whole dispatch outcome is
identical for every collaborator behavior, so no parse error ever reaches
the caller — and refresh is triggered. -/
theorem C7_malformed_cache_equals_missing
    (refresh : Except JsError (List Credential)) (net : Nat → FetchOutcome) (sink : Sink)
    (ep : String) (body : Json) (ctx : String) :
    fetchWithTokenRotation .malformed refresh net sink ep body ctx none =
        fetchWithTokenRotation .missing refresh net sink ep body ctx none ∧
      fetchWithTokenRotation .notArray refresh net sink ep body ctx none =
        fetchWithTokenRotation .missing refresh net sink ep body ctx none ∧
      fetchWithTokenRotation (.credList []) refresh net sink ep body ctx none =
        fetchWithTokenRotation .missing refresh net sink ep body ctx none ∧
      (fetchWithTokenRotation .malformed refresh net okSink ep body ctx none).refreshCalled =
        true := by
  refine ⟨rfl, rfl, rfl, ?_⟩
  unfold fetchWithTokenRotation finishDispatch resolveInitial pinnedTruthy
  cases refresh with
  | ok l =>
    by_cases hl : l.length > 0
    · simp [getTokens, okSink_ok, hl]
      split <;> rfl
    · simp [getTokens, okSink_ok, hl]
  | error e => simp [getTokens, okSink_ok]

/-- C10: a supplied-but-empty pinned credential is falsy and is not treated
as a pin: dispatch behaves identically to a call with no pinned credential,
for every cache content and collaborator behavior. -/
theorem C10_empty_pin_behaves_as_no_pin
    (cache : CacheSlot) (refresh : Except JsError (List Credential))
    (net : Nat → FetchOutcome) (sink : Sink) (ep : String) (body : Json) (ctx : String) :
    fetchWithTokenRotation cache refresh net sink ep body ctx (some "") =
      fetchWithTokenRotation cache refresh net sink ep body ctx none := rfl

/-- C4 counterexample: supplying the empty string as pinned credential does
not bypass rotation — the session cache is read and both cached candidates
are attempted, contradicting "no session-cache read" and "exactly one
request with that token". -/
theorem C4_counterexample_empty_pin_uses_cache :
    (fetchWithTokenRotation (.credList [⟨"A", "x"⟩, ⟨"B", "y"⟩]) (.ok [])
        (fun _ => .fetchThrow (.err "boom")) okSink "/api/veo" .null "CTX"
        (some "")).cacheRead = true ∧
      (fetchWithTokenRotation (.credList [⟨"A", "x"⟩, ⟨"B", "y"⟩]) (.ok [])
          (fun _ => .fetchThrow (.err "boom")) okSink "/api/veo" .null "CTX"
          (some "")).requests.length = 2 := by
  exact ⟨rfl, rfl⟩

/-- C4 (amended): for every call that supplies a NON-EMPTY pinned credential,
resolution yields exactly the single-element pinned list with the "N/A"
sentinel, no session-cache read or write and no refresh call happen, and
exactly one request carrying that token is issued, for every cache content
and whether the attempt succeeds or fails. -/
theorem C4_pinned_single_attempt
    (cache : CacheSlot) (refresh : Except JsError (List Credential))
    (net : Nat → FetchOutcome) (ep : String) (body : Json) (ctx : String)
    (s : String) (hs : s ≠ "") :
    resolveInitial cache (some s) = [⟨s, "N/A"⟩] ∧
      (fetchWithTokenRotation cache refresh net okSink ep body ctx (some s)).cacheRead =
        false ∧
      (fetchWithTokenRotation cache refresh net okSink ep body ctx (some s)).cacheWrites =
        [] ∧
      (fetchWithTokenRotation cache refresh net okSink ep body ctx (some s)).refreshCalled =
        false ∧
      (fetchWithTokenRotation cache refresh net okSink ep body ctx (some s)).requests =
        [⟨ep, s, body⟩] := by
  have hbne : (s != "") = true := by
    simpa [bne_iff_ne] using hs
  have hres : resolveInitial cache (some s) = [⟨s, "N/A"⟩] := by
    simp [resolveInitial, hbne]
  have hpt : pinnedTruthy (some s) = true := by
    simp [pinnedTruthy, hbne]
  have hd : fetchWithTokenRotation cache refresh net okSink ep body ctx (some s) =
      ⟨(rotateLoop net okSink ctx ep body 0 [⟨s, "N/A"⟩]).result,
        (rotateLoop net okSink ctx ep body 0 [⟨s, "N/A"⟩]).log,
        (rotateLoop net okSink ctx ep body 0 [⟨s, "N/A"⟩]).requests, false, [], false⟩ := by
    unfold fetchWithTokenRotation finishDispatch
    simp [hres, hpt]
  have hreq : (rotateLoop net okSink ctx ep body 0 [⟨s, "N/A"⟩]).requests =
      [⟨ep, s, body⟩] := by
    cases hA : attemptResult (net 0) with
    | ok d =>
      rw [rotateLoop_cons_ok net okSink ctx ep body 0 ⟨s, "N/A"⟩ [] d okSink_ok hA]
    | error e1 =>
      rw [rotateLoop_cons_fail_last net okSink ctx ep body 0 ⟨s, "N/A"⟩ e1 okSink_ok hA]
  rw [hd]
  exact ⟨hres, rfl, rfl, rfl, hreq⟩

theorem C4_witness :
    resolveInitial (.credList [⟨"Z", "z"⟩]) (some "tok123") = [⟨"tok123", "N/A"⟩] ∧
      (fetchWithTokenRotation (.credList [⟨"Z", "z"⟩]) (.ok [])
          (fun _ => .resp ⟨500, .ok .null⟩) okSink "/api/veo" .null "CTX"
          (some "tok123")).cacheRead = false ∧
      (fetchWithTokenRotation (.credList [⟨"Z", "z"⟩]) (.ok [])
          (fun _ => .resp ⟨500, .ok .null⟩) okSink "/api/veo" .null "CTX"
          (some "tok123")).cacheWrites = [] ∧
      (fetchWithTokenRotation (.credList [⟨"Z", "z"⟩]) (.ok [])
          (fun _ => .resp ⟨500, .ok .null⟩) okSink "/api/veo" .null "CTX"
          (some "tok123")).refreshCalled = false ∧
      (fetchWithTokenRotation (.credList [⟨"Z", "z"⟩]) (.ok [])
          (fun _ => .resp ⟨500, .ok .null⟩) okSink "/api/veo" .null "CTX"
          (some "tok123")).requests = [⟨"/api/veo", "tok123", .null⟩] :=
  C4_pinned_single_attempt (.credList [⟨"Z", "z"⟩]) (.ok [])
    (fun _ => .resp ⟨500, .ok .null⟩) "/api/veo" .null "CTX" "tok123" (by decide)

/-- C5 counterexample: with an HTTP 500 whose body carries a PRESENT but
empty nested error message and a top-level message "outer", the recorded
failure message is "outer", not the present nested field's value "" — the
source falls through JS falsy values, not absent ones. -/
theorem C5_counterexample_falsy_nested_message :
    nestedMsg (.obj [("error", .obj [("message", .str "")]), ("message", .str "outer")]) =
        some (.str "") ∧
      (fetchWithTokenRotation (.credList [⟨"A", "x"⟩]) (.ok [])
          (fun _ => .resp ⟨500,
            .ok (.obj [("error", .obj [("message", .str "")]),
              ("message", .str "outer")])⟩)
          okSink "/api/veo" .null "CTX" none).result = .error (.err "outer") ∧
      ("outer" : String) ≠ "" := by
  refine ⟨rfl, rfl, by decide⟩

theorem httpFailError_of_ne_null {d : Json} (hd : d ≠ .null) (s : Nat) :
    httpFailError d s = .err (failMessage d s) := by
  cases d with
  | null => exact absurd rfl hd
  | bool b => rfl
  | num n => rfl
  | str s2 => rfl
  | arr xs => rfl
  | obj fs => rfl

/-- C5 (amended): for a failing HTTP status, a `null` parsed body makes the
attempt record the TypeError thrown by the unguarded `data.error` member
access; for any non-null body the recorded error's message is the
(stringified) nested error-message field when present AND truthy
(non-empty), else the top-level message field when present and truthy, else
the generic "API call failed (status)" string; dispatch on a one-credential
cache fails with exactly that error. -/
theorem C5_failure_message_chain
    (c : Credential) (refresh : Except JsError (List Credential))
    (net : Nat → FetchOutcome) (ep : String) (body : Json) (ctx : String)
    (d : Json) (s : Nat)
    (hnet : net 0 = .resp ⟨s, .ok d⟩)
    (hfail : HttpResponse.respOk ⟨s, .ok d⟩ = false) :
    (fetchWithTokenRotation (.credList [c]) refresh net okSink ep body ctx none).result =
        .error (httpFailError d s) ∧
      (d = .null →
        httpFailError d s = .err "Cannot read properties of null (reading 'error')") ∧
      (∀ v, d ≠ .null → pickTruthy (nestedMsg d) = some v →
        httpFailError d s = .err (jsToString v)) ∧
      (d ≠ .null → pickTruthy (nestedMsg d) = none →
        ∀ v, pickTruthy (topMsg d) = some v → httpFailError d s = .err (jsToString v)) ∧
      (d ≠ .null → pickTruthy (nestedMsg d) = none → pickTruthy (topMsg d) = none →
        httpFailError d s = .err ("API call failed (" ++ toString s ++ ")")) := by
  have hA : attemptResult (net 0) = .error (httpFailError d s) := by
    rw [hnet]
    simp [attemptResult, hfail]
  refine ⟨?_, ?_, ?_, ?_, ?_⟩
  · rw [dispatch_cached_nonempty [c] (by simp) refresh net okSink ep body ctx]
    rw [rotateLoop_cons_fail_last net okSink ctx ep body 0 c _ okSink_ok hA]
  · intro hd
    subst hd
    rfl
  · intro v hd hv
    rw [httpFailError_of_ne_null hd]
    simp [failMessage, hv]
  · intro hd h1 v h2
    rw [httpFailError_of_ne_null hd]
    simp [failMessage, h1, h2]
  · intro hd h1 h2
    rw [httpFailError_of_ne_null hd]
    simp [failMessage, h1, h2]

theorem C5_witness :
    (fun (_ : Nat) => FetchOutcome.resp ⟨500,
          .ok (.obj [("error", .obj [("message", .str "quota")])])⟩) 0 =
        .resp ⟨500, .ok (.obj [("error", .obj [("message", .str "quota")])])⟩ ∧
      HttpResponse.respOk ⟨500,
          .ok (.obj [("error", .obj [("message", .str "quota")])])⟩ = false ∧
      failMessage (.obj [("error", .obj [("message", .str "quota")])]) 500 = "quota" ∧
      (fetchWithTokenRotation (.credList [⟨"A", "x"⟩]) (.ok [])
          (fun _ => .resp ⟨500, .ok (.obj [("error", .obj [("message", .str "quota")])])⟩)
          okSink "/api/veo" .null "VEO T2V" none).result = .error (.err "quota") ∧
      (fetchWithTokenRotation (.credList [⟨"A", "x"⟩]) (.ok [])
          (fun _ => .resp ⟨500, .ok .null⟩)
          okSink "/api/veo" .null "VEO T2V" none).result =
        .error (.err "Cannot read properties of null (reading 'error')") :=
  ⟨rfl, by decide, rfl,
    (C5_failure_message_chain ⟨"A", "x"⟩ (.ok [])
      (fun _ => .resp ⟨500, .ok (.obj [("error", .obj [("message", .str "quota")])])⟩)
      "/api/veo" .null "VEO T2V"
      (.obj [("error", .obj [("message", .str "quota")])]) 500 rfl (by decide)).1,
    (C5_failure_message_chain ⟨"A", "x"⟩ (.ok [])
      (fun _ => .resp ⟨500, .ok .null⟩)
      "/api/veo" .null "VEO T2V" .null 500 rfl (by decide)).1⟩

/-- C6 counterexample: for an all-failing cached list of length 1 the
rotation produces THREE audit entries — an attempt-start entry, the
attempt-failure entry and the summary — not just the failure plus summary
the claim allows ("no other audit entries"). -/
theorem C6_counterexample_extra_audit_entries :
    (fetchWithTokenRotation (.credList [⟨"A", "x"⟩]) (.ok [])
        (fun _ => .fetchThrow (.err "boom")) okSink "/api/veo" .null "CTX" none).log =
        [attemptLogEntry "CTX" 0 "A", failLogEntry "CTX" 0 "boom",
          summaryLogEntry "CTX" (.err "boom")] ∧
      (fetchWithTokenRotation (.credList [⟨"A", "x"⟩]) (.ok [])
          (fun _ => .fetchThrow (.err "boom")) okSink "/api/veo" .null "CTX"
          none).log.length = 3 ∧
      (attemptLogEntry "CTX" 0 "A").status = .success := by
  exact ⟨rfl, rfl, rfl⟩

/-- C6 (amended): for an all-failing cached list of length n the rotation
emits exactly 3n audit entries — per attempt one attempt-start entry and one
failure entry, a retry notice between consecutive attempts, and one final
summary — of which exactly n+1 carry Error status (the n failures and the
summary). -/
theorem C6_audit_entry_accounting
    (toks : List Credential) (refresh : Except JsError (List Credential))
    (net : Nat → FetchOutcome) (ep : String) (body : Json) (ctx : String)
    (hne : toks ≠ [])
    (hall : ∀ j, j < toks.length → attemptFails (net j) = true) :
    (fetchWithTokenRotation (.credList toks) refresh net okSink ep body ctx none).log.length =
        3 * toks.length ∧
      (fetchWithTokenRotation (.credList toks) refresh net okSink ep body ctx none).log.countP
          (fun e => decide (e.status = LogStatus.error)) = toks.length + 1 := by
  rw [dispatch_cached_nonempty toks hne refresh net okSink ep body ctx]
  exact rotateLoop_all_fail_log net ctx ep body toks 0 hne
    (fun j hj => by simpa using hall j hj)

theorem C6_witness :
    (fetchWithTokenRotation (.credList [⟨"A", "x"⟩, ⟨"B", "y"⟩]) (.ok [])
          (fun _ => .fetchThrow (.err "boom")) okSink "/api/veo" .null "CTX"
          none).log.length = 6 ∧
      (fetchWithTokenRotation (.credList [⟨"A", "x"⟩, ⟨"B", "y"⟩]) (.ok [])
          (fun _ => .fetchThrow (.err "boom")) okSink "/api/veo" .null "CTX"
          none).log.countP (fun e => decide (e.status = LogStatus.error)) = 3 :=
  C6_audit_entry_accounting [⟨"A", "x"⟩, ⟨"B", "y"⟩] (.ok [])
    (fun _ => .fetchThrow (.err "boom")) "/api/veo" .null "CTX" (by decide) (by decide)

/-- C8 counterexample: for the three-character token "abc" the redacted
identifier `slice(-6)` is the entire token, so the attempt-start audit
entry contains the full token string in the clear. -/
theorem C8_counterexample_short_token_in_clear :
    sliceLast 6 "abc" = "abc" ∧
      strContains (attemptLogEntry "CTX" 0 "abc").output "abc" = true := by
  exact ⟨by decide, by decide⟩

/-- C8 (amended): the attempt-start audit entry depends on the token only
through its last six characters — two tokens with equal six-character
suffixes produce identical entries — and it is the first entry the rotation
emits for a candidate; for tokens of six or fewer characters that suffix is
the entire token, so short tokens do appear in full. -/
theorem C8_attempt_entry_redaction
    (ctx ep : String) (body : Json) (net : Nat → FetchOutcome)
    (i : Nat) (t1 t2 ca : String) (h : sliceLast 6 t1 = sliceLast 6 t2) :
    attemptLogEntry ctx i t1 = attemptLogEntry ctx i t2 ∧
      (rotateLoop net okSink ctx ep body i [⟨t1, ca⟩]).log.head? =
        some (attemptLogEntry ctx i t1) := by
  constructor
  · unfold attemptLogEntry
    rw [h]
  · cases hA : attemptResult (net i) with
    | ok d =>
      rw [rotateLoop_cons_ok net okSink ctx ep body i ⟨t1, ca⟩ [] d okSink_ok hA]
      rfl
    | error e1 =>
      rw [rotateLoop_cons_fail_last net okSink ctx ep body i ⟨t1, ca⟩ e1 okSink_ok hA]
      rfl

theorem C8_witness :
    attemptLogEntry "CTX" 0 "xy123456" = attemptLogEntry "CTX" 0 "zw123456" ∧
      (rotateLoop (fun _ => .resp ⟨200, .ok .null⟩) okSink "CTX" "/api/veo" .null 0
          [⟨"xy123456", "x"⟩]).log.head? = some (attemptLogEntry "CTX" 0 "xy123456") :=
  C8_attempt_entry_redaction "CTX" "/api/veo" .null (fun _ => .resp ⟨200, .ok .null⟩)
    0 "xy123456" "zw123456" "x" (by decide)

/-- C9 counterexample: a sink that throws on every call changes the dispatch
outcome — the same one-credential success scenario returns the parsed body
under a normal sink but aborts with the sink's own error under a throwing
sink, because the source invokes `addLogEntry` unguarded. -/
theorem C9_counterexample_throwing_sink :
    (fetchWithTokenRotation (.credList [⟨"A", "x"⟩]) (.ok [])
          (fun _ => .resp ⟨200, .ok (.str "hi")⟩) okSink "/api/veo" .null "CTX"
          none).result = .ok ⟨.str "hi", "A"⟩ ∧
      (fetchWithTokenRotation (.credList [⟨"A", "x"⟩]) (.ok [])
          (fun _ => .resp ⟨200, .ok (.str "hi")⟩)
          (fun _ => .error (.err "sink boom")) "/api/veo" .null "CTX"
          none).result = .error (.err "sink boom") ∧
      (Except.ok (⟨.str "hi", "A"⟩ : DispatchSuccess) :
          Except JsError DispatchSuccess) ≠ .error (.err "sink boom") := by
  refine ⟨rfl, rfl, fun hcontra => Except.noConfusion hcontra⟩

/-- C9 (amended): provided the audit sink returns normally on every entry,
the entire dispatch outcome is identical to the outcome under the canonical
no-op sink — dispatch never branches on anything the sink produces; a
throwing sink, however, aborts dispatch (see the counterexample). -/
theorem C9_sink_noninterference
    (cache : CacheSlot) (refresh : Except JsError (List Credential))
    (net : Nat → FetchOutcome) (ep : String) (body : Json) (ctx : String)
    (st : Option String) (sink : Sink) (h : ∀ e, sink e = .ok ()) :
    fetchWithTokenRotation cache refresh net sink ep body ctx st =
      fetchWithTokenRotation cache refresh net okSink ep body ctx st :=
  dispatch_sink_irrelevant cache refresh net sink h ep body ctx st

theorem C9_witness :
    fetchWithTokenRotation (.credList [⟨"A", "x"⟩]) (.ok [])
        (fun _ => .resp ⟨200, .ok (.str "hi")⟩) (fun _ => .ok ()) "/api/veo" .null
        "CTX" none =
      fetchWithTokenRotation (.credList [⟨"A", "x"⟩]) (.ok [])
        (fun _ => .resp ⟨200, .ok (.str "hi")⟩) okSink "/api/veo" .null
        "CTX" none :=
  C9_sink_noninterference (.credList [⟨"A", "x"⟩]) (.ok [])
    (fun _ => .resp ⟨200, .ok (.str "hi")⟩) "/api/veo" .null "CTX" none
    (fun _ => .ok ()) (fun _ => rfl)
